import Mathlib

/-!
Verification of the business lead-generation pipeline.

A shallow embedding of the pipeline of this repository
(`business_finder.py`, `yelp_api_client.py`, `smarty_verification.py`,
`leadgen/views/dashboard.py`) together with theorems settling the
specification's claims about it.

Python dictionaries are modelled as ordered association lists over a
universe `PVal` of Python values; dictionary read (`d.get(k)`) is
`alistGet` and dictionary write (`d[k] = v`) is `alistSet` (replace the
existing binding, else append, as Python dicts preserve insertion order).
Network calls are modelled by oracle functions passed as parameters;
a raised `requests` exception is an `Except.error` (or `none`) oracle
answer.  Machine floats are modelled by rationals.
-/

/-- A Python value, as it occurs in the API payload dictionaries handled by
the pipeline: strings, booleans, numbers, `None`, nested dicts and lists. -/
inductive PVal where
  | str (v : String)
  | bool (v : Bool)
  | num (v : ℚ)
  | pynone
  | dict (d : List (String × PVal))
  | list (l : List PVal)

/-- A Python dictionary with string keys. -/
abbrev PDict := List (String × PVal)

/-- Python `d.get(k)` on a dict: the value of the first binding of `k`. -/
def alistGet {α : Type} : List (String × α) → String → Option α
  | [], _ => none
  | (k', v) :: rest, k => if k' = k then some v else alistGet rest k

/-- Python `d[k] = v` on a dict: replace the binding of `k` in place,
else append it (insertion order is preserved). -/
def alistSet {α : Type} : List (String × α) → String → α → List (String × α)
  | [], k, v => [(k, v)]
  | (k', v') :: rest, k, v =>
      if k' = k then (k, v) :: rest else (k', v') :: alistSet rest k v

@[simp] theorem alistGet_nil {α : Type} (k : String) :
    alistGet ([] : List (String × α)) k = none := rfl

@[simp] theorem alistGet_set_self {α : Type} (d : List (String × α)) (k : String) (v : α) :
    alistGet (alistSet d k v) k = some v := by
  induction d with
  | nil => simp [alistGet, alistSet]
  | cons p rest ih =>
      by_cases h : p.1 = k
      · simp [alistSet, h, alistGet]
      · simp [alistSet, h, alistGet, ih]

theorem alistGet_set_ne {α : Type} {k' k : String} (h : k' ≠ k)
    (d : List (String × α)) (v : α) :
    alistGet (alistSet d k' v) k = alistGet d k := by
  induction d with
  | nil => simp [alistGet, alistSet, h]
  | cons p rest ih =>
      by_cases hp : p.1 = k'
      · simp [alistSet, hp, alistGet, h]
      · simp only [alistSet, hp, if_false, alistGet]
        by_cases hk : p.1 = k
        · simp [hk]
        · simp [hk, ih]

/-- Python truthiness of the result of a `d.get(k)` call: `None` (and an
absent key) is falsy, empty strings/dicts/lists and zero are falsy,
everything else is truthy. -/
def pyTruthy : Option PVal → Bool
  | none => false
  | some (.str v) => !(v == "")
  | some (.bool v) => v
  | some (.num v) => !(v == 0)
  | some .pynone => false
  | some (.dict d) => !d.isEmpty
  | some (.list l) => !l.isEmpty

/-- Python `d.get(k)` used as a dict value: an absent key denotes Python `None`. -/
def getAsVal (d : PDict) (k : String) : PVal := (alistGet d k).getD .pynone

/-- The lookup `business.get("location", {})`, restricted to the well-formed case in
which the `location` value, when present, is a dict. -/
def getLocation (d : PDict) : PDict :=
  match alistGet d "location" with
  | some (.dict l) => l
  | _ => []

/-- The initial `verified_data` dictionary of
`BusinessFinder.fast_verify_business` (`business_finder.py`, lines
194-214): Yelp fields used as the primary source, with default status
`"unknown"` and default confidence `"medium"`. -/
def initialVerifiedData (yelp_data : PDict) : PDict :=
  let loc := getLocation yelp_data
  [("verified_name", getAsVal yelp_data "name"),
   ("verified_address", getAsVal loc "address1"),
   ("verified_city", getAsVal loc "city"),
   ("verified_phone", getAsVal yelp_data "phone"),
   ("business_status", .str "unknown"),
   ("confidence_level", .str "medium"),
   ("reasoning", .str "Using Yelp data as primary source"),
   ("discrepancies_found", .bool false),
   ("discrepancy_details", .str "Fast verification used")]

/-- The test `google_data.get("business_status") == "CLOSED_PERMANENTLY"`
(`business_finder.py`, line 219); Python `==` with a string literal is
true only for that exact string value. -/
def googleClosed (g : PDict) : Bool :=
  match alistGet g "business_status" with
  | some (.str s) => s == "CLOSED_PERMANENTLY"
  | _ => false

/-- The three updates applied to `verified_data` when the Google
cross-reference reports `CLOSED_PERMANENTLY` (`business_finder.py`,
lines 220-222). -/
def closedVerifiedData (yelp_data : PDict) : PDict :=
  alistSet (alistSet (alistSet (initialVerifiedData yelp_data)
    "business_status" (.str "closed"))
    "confidence_level" (.str "high"))
    "reasoning" (.str "Google indicates business is permanently closed")

/-- The method `BusinessFinder.fast_verify_business` (`business_finder.py`, lines
181-228): reconcile a raw Yelp listing with an optional Google
cross-reference record.  Yelp is the trusted primary source; the output
starts at confidence `"medium"` / status `"unknown"`, is upgraded to
`"high"` / `"closed"` exactly when Google reports
`CLOSED_PERMANENTLY`, and the Google phone backfills a missing Yelp
phone. -/
def fast_verify_business (yelp_data : PDict) (google_data : Option PDict) : PDict :=
  let verified_data := initialVerifiedData yelp_data
  match google_data with
  | some g =>
      -- `if google_data:` — an empty dict is falsy in Python
      if g.isEmpty then verified_data
      else
        let v1 := if googleClosed g then closedVerifiedData yelp_data else verified_data
        if !(pyTruthy (alistGet v1 "verified_phone")) &&
            pyTruthy (alistGet g "formatted_phone_number") then
          alistSet v1 "verified_phone" (getAsVal g "formatted_phone_number")
        else v1
  | none => verified_data

example :
    alistGet (fast_verify_business [("name", .str "A")] none) "confidence_level"
      = some (.str "medium") := rfl

example :
    alistGet (fast_verify_business [("name", .str "A")]
      (some [("business_status", .str "CLOSED_PERMANENTLY")])) "confidence_level"
      = some (.str "high") := rfl

example :
    alistGet (fast_verify_business [("name", .str "A")]
      (some [("formatted_phone_number", .str "615-555-0100")])) "verified_phone"
      = some (.str "615-555-0100") := rfl

@[simp] theorem initial_confidence (y : PDict) :
    alistGet (initialVerifiedData y) "confidence_level" = some (.str "medium") := rfl

@[simp] theorem initial_status (y : PDict) :
    alistGet (initialVerifiedData y) "business_status" = some (.str "unknown") := rfl

@[simp] theorem initial_phone (y : PDict) :
    alistGet (initialVerifiedData y) "verified_phone" = some (getAsVal y "phone") := rfl

@[simp] theorem closed_confidence (y : PDict) :
    alistGet (closedVerifiedData y) "confidence_level" = some (.str "high") := rfl

@[simp] theorem closed_status (y : PDict) :
    alistGet (closedVerifiedData y) "business_status" = some (.str "closed") := rfl

@[simp] theorem closed_phone (y : PDict) :
    alistGet (closedVerifiedData y) "verified_phone" = some (getAsVal y "phone") := rfl

/-- Unfolding of `fast_verify_business` on a truthy (nonempty) Google dict. -/
theorem fvb_some_eq (y g : PDict) (h : g.isEmpty = false) :
    fast_verify_business y (some g) =
      (let v1 := if googleClosed g then closedVerifiedData y else initialVerifiedData y
       if !(pyTruthy (alistGet v1 "verified_phone")) &&
           pyTruthy (alistGet g "formatted_phone_number") then
         alistSet v1 "verified_phone" (getAsVal g "formatted_phone_number")
       else v1) := by
  simp [fast_verify_business, h]

theorem googleClosed_true (g : PDict)
    (h : alistGet g "business_status" = some (.str "CLOSED_PERMANENTLY")) :
    googleClosed g = true := by
  simp [googleClosed, h]

theorem googleClosed_false (g : PDict)
    (h : alistGet g "business_status" ≠ some (.str "CLOSED_PERMANENTLY")) :
    googleClosed g = false := by
  unfold googleClosed
  cases hbs : alistGet g "business_status" with
  | none => rfl
  | some v =>
      cases v with
      | str s =>
          have hs : s ≠ "CLOSED_PERMANENTLY" := by
            intro he
            exact h (by rw [hbs, he])
          simp [hs]
      | bool v => rfl
      | num v => rfl
      | pynone => rfl
      | dict d => rfl
      | list l => rfl

theorem isEmpty_false_of_get (g : PDict) {k : String} {v : PVal}
    (h : alistGet g k = some v) : g.isEmpty = false := by
  cases g with
  | nil => simp [alistGet] at h
  | cons p rest => rfl

/-- Confidence level of the reconciled record, nonempty-Google case. -/
theorem fvb_confidence_some (y g : PDict) (h : g.isEmpty = false) :
    alistGet (fast_verify_business y (some g)) "confidence_level" =
      (if googleClosed g then some (.str "high") else some (.str "medium")) := by
  rw [fvb_some_eq y g h]
  by_cases hc : googleClosed g = true
  · simp only [hc, if_true]
    split
    · rw [alistGet_set_ne (by decide)]; exact closed_confidence y
    · exact closed_confidence y
  · simp only [Bool.not_eq_true] at hc
    simp only [hc, Bool.false_eq_true, if_false]
    split
    · rw [alistGet_set_ne (by decide)]; exact initial_confidence y
    · exact initial_confidence y

/-- Business status of the reconciled record, nonempty-Google case. -/
theorem fvb_status_some (y g : PDict) (h : g.isEmpty = false) :
    alistGet (fast_verify_business y (some g)) "business_status" =
      (if googleClosed g then some (.str "closed") else some (.str "unknown")) := by
  rw [fvb_some_eq y g h]
  by_cases hc : googleClosed g = true
  · simp only [hc, if_true]
    split
    · rw [alistGet_set_ne (by decide)]; exact closed_status y
    · exact closed_status y
  · simp only [Bool.not_eq_true] at hc
    simp only [hc, Bool.false_eq_true, if_false]
    split
    · rw [alistGet_set_ne (by decide)]; exact initial_status y
    · exact initial_status y

@[simp] theorem pyTruthy_pynone : pyTruthy (some PVal.pynone) = false := rfl

/-- C10: for every raw Yelp listing and optional Google cross-reference
record, the confidence level assigned by `fast_verify_business` is either
`"medium"` or `"high"`; the `"low"` tier of the three-tier scale is never
assigned by reconciliation. -/
theorem claim_C10_confidence_two_tier (y : PDict) (og : Option PDict) :
    alistGet (fast_verify_business y og) "confidence_level" = some (.str "medium") ∨
    alistGet (fast_verify_business y og) "confidence_level" = some (.str "high") := by
  cases og with
  | none => exact Or.inl rfl
  | some g =>
      by_cases hE : g.isEmpty = true
      · exact Or.inl (by simp [fast_verify_business, hE])
      · rw [fvb_confidence_some y g (Bool.not_eq_true _ ▸ hE)]
        by_cases hc : googleClosed g = true
        · exact Or.inr (by simp [hc])
        · exact Or.inl (by simp [hc])

/-- C3: if the Google cross-reference reports the business permanently
closed, the reconciled record has confidence `"high"` and status
`"closed"`; when no closure signal is present (including when the
cross-reference is absent), it has confidence `"medium"` and status
`"unknown"`. -/
theorem claim_C3_closure_and_default (y g : PDict) (og : Option PDict)
    (hclosed : alistGet g "business_status" = some (.str "CLOSED_PERMANENTLY"))
    (hdefault : og = none ∨
      ∃ h, og = some h ∧ alistGet h "business_status" ≠ some (.str "CLOSED_PERMANENTLY")) :
    (alistGet (fast_verify_business y (some g)) "confidence_level" = some (.str "high") ∧
     alistGet (fast_verify_business y (some g)) "business_status" = some (.str "closed")) ∧
    (alistGet (fast_verify_business y og) "confidence_level" = some (.str "medium") ∧
     alistGet (fast_verify_business y og) "business_status" = some (.str "unknown")) := by
  constructor
  · have hne := isEmpty_false_of_get g hclosed
    have hc := googleClosed_true g hclosed
    rw [fvb_confidence_some y g hne, fvb_status_some y g hne, hc]
    exact ⟨by simp, by simp⟩
  · rcases hdefault with rfl | ⟨h2, rfl, hns⟩
    · exact ⟨rfl, rfl⟩
    · by_cases hE : h2.isEmpty = true
      · constructor <;> simp [fast_verify_business, hE]
      · have hE' : h2.isEmpty = false := Bool.not_eq_true _ ▸ hE
        have hc := googleClosed_false h2 hns
        rw [fvb_confidence_some y h2 hE', fvb_status_some y h2 hE', hc]
        exact ⟨by simp, by simp⟩

theorem claim_C3_closure_and_default_witness :
    (alistGet (fast_verify_business [("name", PVal.str "Acme Cafe")]
        (some [("business_status", PVal.str "CLOSED_PERMANENTLY")])) "confidence_level"
      = some (PVal.str "high") ∧
     alistGet (fast_verify_business [("name", PVal.str "Acme Cafe")]
        (some [("business_status", PVal.str "CLOSED_PERMANENTLY")])) "business_status"
      = some (PVal.str "closed")) ∧
    (alistGet (fast_verify_business [("name", PVal.str "Acme Cafe")] none) "confidence_level"
      = some (PVal.str "medium") ∧
     alistGet (fast_verify_business [("name", PVal.str "Acme Cafe")] none) "business_status"
      = some (PVal.str "unknown")) :=
  claim_C3_closure_and_default [("name", PVal.str "Acme Cafe")]
    [("business_status", PVal.str "CLOSED_PERMANENTLY")] none rfl (Or.inl rfl)

/-- C4: for a listing with no phone field, if the cross-reference record
carries a (truthy) phone number, the reconciled record's phone equals
that phone; with no cross-reference phone available (record absent, or
its phone falsy) the reconciled phone is Python `None`, i.e. empty. -/
theorem claim_C4_phone_backfill (y g : PDict) (p : String) (og : Option PDict)
    (hphone : alistGet y "phone" = none)
    (hg : alistGet g "formatted_phone_number" = some (.str p)) (hp : p ≠ "")
    (hother : og = none ∨
      ∃ h, og = some h ∧ pyTruthy (alistGet h "formatted_phone_number") = false) :
    alistGet (fast_verify_business y (some g)) "verified_phone" = some (.str p) ∧
    alistGet (fast_verify_business y og) "verified_phone" = some PVal.pynone := by
  have hyp : getAsVal y "phone" = PVal.pynone := by simp [getAsVal, hphone]
  have htr : pyTruthy (some (PVal.str p)) = true := by simp [pyTruthy, hp]
  constructor
  · have hne := isEmpty_false_of_get g hg
    rw [fvb_some_eq y g hne]
    by_cases hc : googleClosed g = true
    · simp [hc, closed_phone, hyp, hphone, hg, htr, pyTruthy_pynone, getAsVal]
    · simp [hc, initial_phone, hyp, hphone, hg, htr, pyTruthy_pynone, getAsVal]
  · rcases hother with rfl | ⟨h2, rfl, hnp⟩
    · simp [fast_verify_business, initial_phone, hyp]
    · by_cases hE : h2.isEmpty = true
      · simp [fast_verify_business, hE, initial_phone, hyp]
      · have hE' : h2.isEmpty = false := Bool.not_eq_true _ ▸ hE
        rw [fvb_some_eq y h2 hE']
        by_cases hc : googleClosed h2 = true
        · simp [hc, closed_phone, hyp, hnp, pyTruthy_pynone]
        · simp [hc, initial_phone, hyp, hnp, pyTruthy_pynone]

theorem claim_C4_phone_backfill_witness :
    alistGet (fast_verify_business [("name", PVal.str "Joes Diner")]
        (some [("formatted_phone_number", PVal.str "615-555-0100")])) "verified_phone"
      = some (PVal.str "615-555-0100") ∧
    alistGet (fast_verify_business [("name", PVal.str "Joes Diner")] none) "verified_phone"
      = some PVal.pynone :=
  claim_C4_phone_backfill [("name", PVal.str "Joes Diner")]
    [("formatted_phone_number", PVal.str "615-555-0100")] "615-555-0100" none
    rfl rfl (by decide) (Or.inl rfl)

/-!
Address verification (`smarty_verification.py`).

`SmartyStreetsVerifier.verify_address` issues one request; the embedding
takes the upstream answer as a parameter: a transport error
(`requests.exceptions.RequestException`), any other unexpected
exception, or a decoded JSON list of candidate results.  The boolean
flags model the Python truthiness of `analysis.get("dpv_vacant", False)`
and `analysis.get("dpv_cmra", False)`; confidences are rationals. -/

/-- One candidate of the verification response, flattened over the
`analysis` / `components` sub-dicts the code reads with defaulting
`get` calls (an absent sub-dict behaves like one with all fields
absent). -/
structure SmartyResult where
  dpv_match_code : Option String
  dpv_vacant : Bool
  dpv_cmra : Bool
  dpv_footnotes : Option String
  delivery_line_1 : Option String
  city_name : Option String
  state_abbreviation : Option String
  zipcode : Option String

/-- The upstream answer seen by `verify_address`'s `try` block. -/
inductive SmartyResponse where
  | transportError (msg : String)
  | otherError (msg : String)
  | ok (results : List SmartyResult)

/-- The dictionary `verify_address` returns. -/
structure VerifyOutcome where
  verified : Bool
  status : String
  confidence : ℚ
  verified_address : Option String
  verified_city : Option String
  verified_state : Option String
  verified_zip_code : Option String
  error : Option String
deriving DecidableEq

/-- The membership test
`result.get('analysis', {}).get('dpv_match_code') in ['Y', 'S', 'D']`
(`smarty_verification.py`, line 71); `None` is in no list. -/
def deliverableCode (c : Option String) : Bool :=
  c == some "Y" || c == some "S" || c == some "D"

/-- The method `SmartyStreetsVerifier._calculate_confidence`
(`smarty_verification.py`, lines 121-151): a base confidence looked up
from the DPV match code (default `'N'`), down-weighted for a vacant
address and for a commercial mail-receiving agency, clamped to
`[0, 1]`. -/
def calculate_confidence (r : SmartyResult) : ℚ :=
  let dpv := r.dpv_match_code.getD "N"
  let base : ℚ :=
    if dpv = "Y" then 1
    else if dpv = "S" then 9/10
    else if dpv = "D" then 4/5
    else 0
  let b1 := if r.dpv_vacant then base * (7/10) else base
  let b2 := if r.dpv_cmra then b1 * (9/10) else b1
  min (max b2 0) 1

/-- The method `SmartyStreetsVerifier.verify_address` (`smarty_verification.py`,
lines 27-119), as a function of the upstream answer.  Every branch —
including both exception handlers — returns a result dictionary, so the
embedding is a total function: the Python method never raises to its
caller. -/
def verify_address (resp : SmartyResponse) : VerifyOutcome :=
  match resp with
  | .transportError msg =>
      ⟨false, "error", 0, none, none, none, none, some ("API Error: " ++ msg)⟩
  | .otherError msg =>
      ⟨false, "error", 0, none, none, none, none, some ("Unexpected error: " ++ msg)⟩
  | .ok [] =>
      ⟨false, "invalid", 0, none, none, none, none, some "No results returned"⟩
  | .ok (r :: _) =>
      if deliverableCode r.dpv_match_code then
        ⟨true, "verified", calculate_confidence r,
         some (r.delivery_line_1.getD ""), some (r.city_name.getD ""),
         some (r.state_abbreviation.getD ""), some (r.zipcode.getD ""), none⟩
      else
        ⟨false, "invalid", 0, none, none, none, none,
         some (r.dpv_footnotes.getD "Address not deliverable")⟩

/-- C6: a response whose first candidate has DPV match code `"Y"` with
neither auxiliary flag yields `verified = true`, `confidence = 1.0`,
`status = "verified"`; a first candidate whose match code is outside
the deliverable set `{Y, S, D}`, or an empty result list, yields
`verified = false`, `confidence = 0.0`. -/
theorem claim_C6_dpv_match_outcomes (r r' : SmartyResult) (rest rest' : List SmartyResult)
    (hY : r.dpv_match_code = some "Y") (hvac : r.dpv_vacant = false)
    (hcm : r.dpv_cmra = false)
    (hout : r'.dpv_match_code ≠ some "Y" ∧ r'.dpv_match_code ≠ some "S" ∧
      r'.dpv_match_code ≠ some "D") :
    ((verify_address (.ok (r :: rest))).verified = true ∧
     (verify_address (.ok (r :: rest))).confidence = 1 ∧
     (verify_address (.ok (r :: rest))).status = "verified") ∧
    ((verify_address (.ok (r' :: rest'))).verified = false ∧
     (verify_address (.ok (r' :: rest'))).confidence = 0) ∧
    ((verify_address (.ok [])).verified = false ∧
     (verify_address (.ok [])).confidence = 0) := by
  refine ⟨?_, ?_, by constructor <;> rfl⟩
  · have hdel : deliverableCode r.dpv_match_code = true := by
      simp [deliverableCode, hY]
    have hconf : calculate_confidence r = 1 := by
      simp [calculate_confidence, hY, hvac, hcm]
    simp [verify_address, hdel, hconf]
  · have hdel : deliverableCode r'.dpv_match_code = false := by
      simp [deliverableCode, hout.1, hout.2.1, hout.2.2]
    simp [verify_address, hdel]

theorem claim_C6_dpv_match_outcomes_witness :
    ((verify_address (.ok [⟨some "Y", false, false, none, some "1 Main St",
        some "Nashville", some "TN", some "37201"⟩])).verified = true ∧
     (verify_address (.ok [⟨some "Y", false, false, none, some "1 Main St",
        some "Nashville", some "TN", some "37201"⟩])).confidence = 1 ∧
     (verify_address (.ok [⟨some "Y", false, false, none, some "1 Main St",
        some "Nashville", some "TN", some "37201"⟩])).status = "verified") ∧
    ((verify_address (.ok [⟨some "N", false, false, some "AA", none, none,
        none, none⟩])).verified = false ∧
     (verify_address (.ok [⟨some "N", false, false, some "AA", none, none,
        none, none⟩])).confidence = 0) ∧
    ((verify_address (.ok [])).verified = false ∧
     (verify_address (.ok [])).confidence = 0) :=
  claim_C6_dpv_match_outcomes
    ⟨some "Y", false, false, none, some "1 Main St", some "Nashville",
      some "TN", some "37201"⟩
    ⟨some "N", false, false, some "AA", none, none, none, none⟩ [] []
    rfl rfl rfl (by refine ⟨?_, ?_, ?_⟩ <;> simp)

/-- C7: `verify_address` is a total function of the upstream answer (it
never raises to its caller), and on a transport error or any unexpected
exception it returns `status = "error"`, `confidence = 0.0`, and a
non-empty human-readable error string. -/
theorem claim_C7_error_handling (msg msg' : String) :
    ((verify_address (.transportError msg)).status = "error" ∧
     (verify_address (.transportError msg)).confidence = 0 ∧
     (verify_address (.transportError msg)).error = some ("API Error: " ++ msg) ∧
     ("API Error: " ++ msg) ≠ "") ∧
    ((verify_address (.otherError msg')).status = "error" ∧
     (verify_address (.otherError msg')).confidence = 0 ∧
     (verify_address (.otherError msg')).error = some ("Unexpected error: " ++ msg') ∧
     ("Unexpected error: " ++ msg') ≠ "") := by
  refine ⟨⟨rfl, rfl, rfl, ?_⟩, rfl, rfl, rfl, ?_⟩ <;>
    · intro h
      have := congrArg String.length h
      simp [String.length_append] at this
      exact absurd this.1 (by decide)

/-!
Result sink (`leadgen/views/dashboard.py`, `search_businesses`, lines 112-149).

For each raw listing of the batch the view queries the store for an
existing row with the same `yelp_id` (`Business.query.filter_by(yelp_id=
business.get('id')).first()`); only when none exists is a new row
inserted — an already-known identifier is skipped with no
update-in-place.  The store is modelled as the ordered list of persisted
rows; `filter_by` with `None` matches a stored SQL `NULL` identifier,
which the `Option String` equality mirrors. -/

/-- The fields of a raw directory listing that the sink's field mapping
reads (`dashboard.py`, lines 134-148); remaining columns are copied the
same way and do not affect deduplication. -/
structure RawBiz where
  id : Option String
  name : Option String
  location_address1 : Option String
  location_city : Option String
  location_state : Option String
  location_zip : Option String
  phone : Option String
  url : Option String
  rating : Option ℚ
  review_count : Option ℚ

/-- A persisted `Business` row (`leadgen/models.py`); `yelp_id` is the
external directory identifier the sink deduplicates on. -/
structure BusinessRow where
  yelp_id : Option String
  name : Option String
  address : String
  city : String
  state : String
  zip_code : String
  phone : String
  website : String
  rating : ℚ
  review_count : ℚ

/-- The 1:1 field mapping from a raw listing to a new `Business` row,
with the default substitutions of `dashboard.py` lines 134-148. -/
def mkBusinessRow (b : RawBiz) : BusinessRow :=
  ⟨b.id, b.name, b.location_address1.getD "", b.location_city.getD "",
   b.location_state.getD "", b.location_zip.getD "", b.phone.getD "",
   b.url.getD "", b.rating.getD 0, b.review_count.getD 0⟩

/-- One iteration of the sink loop: skip if a row with the listing's
`yelp_id` already exists, else insert. -/
def ingestOne (store : List BusinessRow) (b : RawBiz) : List BusinessRow :=
  if store.any (fun r => r.yelp_id == b.id) then store
  else store ++ [mkBusinessRow b]

/-- The sink pass of `search_businesses` over a batch of listings. -/
def ingestBatch (store : List BusinessRow) (batch : List RawBiz) : List BusinessRow :=
  batch.foldl ingestOne store

theorem ingestOne_any (s : List BusinessRow) (b' : RawBiz)
    (P : BusinessRow → Bool) (h : s.any P = true) : (ingestOne s b').any P = true := by
  unfold ingestOne
  split
  · exact h
  · simp [List.any_append, h]

theorem ingestOne_self (s : List BusinessRow) (b : RawBiz) :
    (ingestOne s b).any (fun r => r.yelp_id == b.id) = true := by
  unfold ingestOne
  split
  · assumption
  · simp [List.any_append, mkBusinessRow]

theorem ingestBatch_any (s : List BusinessRow) (batch : List RawBiz)
    (P : BusinessRow → Bool) (h : s.any P = true) : (ingestBatch s batch).any P = true := by
  induction batch generalizing s with
  | nil => exact h
  | cons b t ih => exact ih (ingestOne s b) (ingestOne_any s b P h)

theorem ingestBatch_all_present (s : List BusinessRow) (batch : List RawBiz) :
    ∀ b ∈ batch, (ingestBatch s batch).any (fun r => r.yelp_id == b.id) = true := by
  induction batch generalizing s with
  | nil => intro b hb; cases hb
  | cons b t ih =>
      intro b' hb'
      rcases List.mem_cons.mp hb' with rfl | hmem
      · exact ingestBatch_any (ingestOne s b') t _ (ingestOne_self s b')
      · exact ih (ingestOne s b) b' hmem

theorem ingestBatch_noop (s : List BusinessRow) (batch : List RawBiz)
    (h : ∀ b ∈ batch, s.any (fun r => r.yelp_id == b.id) = true) :
    ingestBatch s batch = s := by
  induction batch generalizing s with
  | nil => rfl
  | cons b t ih =>
      have hb : ingestOne s b = s := by
        unfold ingestOne
        rw [if_pos (h b (List.mem_cons_self b t))]
      show ingestBatch (ingestOne s b) t = s
      rw [hb]
      exact ih s (fun b' hb' => h b' (List.mem_cons_of_mem b hb'))

/-- C5: ingesting the same batch twice leaves the store — hence the
stored count — exactly as after ingesting it once, because a listing
whose `yelp_id` already exists in the store is skipped with no
update-in-place. -/
theorem claim_C5_ingest_idempotent (store : List BusinessRow) (batch : List RawBiz) :
    ingestBatch (ingestBatch store batch) batch = ingestBatch store batch ∧
    (ingestBatch (ingestBatch store batch) batch).length
      = (ingestBatch store batch).length ∧
    ∀ (s : List BusinessRow) (b : RawBiz),
      s.any (fun r => r.yelp_id == b.id) = true → ingestOne s b = s := by
  have hid : ingestBatch (ingestBatch store batch) batch = ingestBatch store batch :=
    ingestBatch_noop _ _ (ingestBatch_all_present store batch)
  exact ⟨hid, by rw [hid], fun s b h => by unfold ingestOne; rw [if_pos h]⟩

/-!
Directory search (`business_finder.py` lines 69-127, `yelp_api_client.py` lines 23-66).

Both searches are offset-paginated loops over an upstream search
endpoint, modelled by an oracle from the request parameters to the
page returned (`Except.error` / `none` standing for a raised or caught
`requests` exception).  The loops run `while len(acc) < max_results`;
every continued iteration appends at least one listing, so a fuel of
`max_results + 1` iterations is never exhausted before the loop's own
exit conditions fire, and the fuelled recursion below computes exactly
what the `while` loop computes.  The `business_finder` loop also
records the request of every page fetch, so that the parameters sent
upstream can be inspected. -/

/-- The dataclass `config.BusinessSearchParams`. -/
structure BusinessSearchParams where
  city : String
  industry : String
  distance_miles : ℚ
  max_results : Nat

/-- Python `int()` applied to a float: truncation toward zero
(floor for nonnegative arguments, ceiling for negative ones). -/
def pyInt (q : ℚ) : ℤ := if 0 ≤ q then ⌊q⌋ else ⌈q⌉

/-- The conversion `radius_meters = int(params.distance_miles * 1609.34)`
(`business_finder.py`, line 86). -/
def radius_meters (params : BusinessSearchParams) : ℤ :=
  pyInt (params.distance_miles * (160934 / 100 : ℚ))

/-- The query parameters of one Yelp page request
(`business_finder.py`, lines 94-101). -/
structure YelpRequest where
  term : String
  location : String
  radius : ℤ
  limit : Nat
  offset : Nat
deriving DecidableEq

/-- The `while` loop of `BusinessFinder.search_yelp_businesses`
(`business_finder.py`, lines 92-122), returning the accumulated
listings and the trace of requests issued.  A page fetch error, an
empty page, or a page shorter than `limit` stops pagination. -/
def searchPagesLoop {α : Type} (api : YelpRequest → Except Unit (List α))
    (term location : String) (radius : ℤ) (maxResults limit : Nat) :
    Nat → List α → Nat → List α × List YelpRequest
  | 0, acc, _ => (acc, [])
  | fuel + 1, acc, offset =>
    if acc.length < maxResults then
      let req : YelpRequest := ⟨term, location, radius, limit, offset⟩
      match api req with
      | .error _ => (acc, [req])
      | .ok [] => (acc, [req])
      | .ok (b :: bs) =>
          let acc2 := acc ++ b :: bs
          if (b :: bs).length < limit then (acc2, [req])
          else
            let r := searchPagesLoop api term location radius maxResults limit
              fuel acc2 (offset + (b :: bs).length)
            (r.1, req :: r.2)
    else (acc, [])

/-- The method `BusinessFinder.search_yelp_businesses` (`business_finder.py`,
lines 69-127): paginate with page size `min(50, max_results)` and
truncate the accumulated list to `max_results`.  Returns the listings
and the trace of requests issued. -/
def search_yelp_businesses {α : Type} (api : YelpRequest → Except Unit (List α))
    (params : BusinessSearchParams) : List α × List YelpRequest :=
  let limit := min 50 params.max_results
  let r := searchPagesLoop api params.industry params.city (radius_meters params)
    params.max_results limit (params.max_results + 1) [] 0
  (r.1.take params.max_results, r.2)

/-- The constant `config.DEFAULT_LIMIT`. -/
def DEFAULT_LIMIT : Nat := 50

/-- The query parameters of one page request of
`YelpAPIClient._make_search_request` (`yelp_api_client.py`,
lines 68-90). -/
structure ClientRequest where
  location : String
  categories : Option String
  radius : ℤ
  limit : Nat
  offset : Nat
deriving DecidableEq

/-- The `while` loop of `YelpAPIClient.search_businesses`
(`yelp_api_client.py`, lines 33-64): request `min(limit, remaining)`
results per page, append processed listings up to `max_results`, stop
on a failed request or a page shorter than the requested page size. -/
def clientPagesLoop {α β : Type} (api : ClientRequest → Option (List α)) (process : α → β)
    (location : String) (categories : Option String) (radius : ℤ)
    (maxResults limit : Nat) : Nat → List β → Nat → List β
  | 0, acc, _ => acc
  | fuel + 1, acc, offset =>
    if acc.length < maxResults then
      let currentLimit := min limit (maxResults - acc.length)
      match api ⟨location, categories, radius, currentLimit, offset⟩ with
      | none => acc
      | some page =>
          let acc2 := acc ++ (page.take (maxResults - acc.length)).map process
          if page.length < currentLimit then acc2
          else clientPagesLoop api process location categories radius maxResults limit
            fuel acc2 (offset + currentLimit)
    else acc

/-- The method `YelpAPIClient.search_businesses` (`yelp_api_client.py`, lines
23-66), parameterized by the page oracle and by `_process_business`. -/
def client_search_businesses {α β : Type} (api : ClientRequest → Option (List α))
    (process : α → β) (location : String) (categories : Option String)
    (radius : ℤ) (maxResults : Nat) : List β :=
  (clientPagesLoop api process location categories radius maxResults
    (min DEFAULT_LIMIT maxResults) (maxResults + 1) [] 0).take maxResults

/-- C1: for max_results = N > 0, both directory searches return at most
N listings (the accumulated list is truncated to N), and pagination
stops as soon as a page returns fewer listings than the page-size cap
or zero listings: when already the first page is short, exactly one
request is issued and its (truncated) content is the whole result. -/
theorem claim_C1_bounded_pagination {α β : Type}
    (api : YelpRequest → Except Unit (List α)) (params : BusinessSearchParams)
    (capi : ClientRequest → Option (List α)) (process : α → β)
    (location : String) (categories : Option String) (radius : ℤ) (maxResults : Nat)
    (hN : 0 < params.max_results) (hM : 0 < maxResults) :
    (search_yelp_businesses api params).1.length ≤ params.max_results ∧
    (∀ bs, api ⟨params.industry, params.city, radius_meters params,
        min 50 params.max_results, 0⟩ = .ok bs →
      bs.length < min 50 params.max_results →
      search_yelp_businesses api params
        = (bs.take params.max_results,
           [⟨params.industry, params.city, radius_meters params,
             min 50 params.max_results, 0⟩])) ∧
    (client_search_businesses capi process location categories radius maxResults).length
      ≤ maxResults ∧
    (∀ page, capi ⟨location, categories, radius, min DEFAULT_LIMIT maxResults, 0⟩
        = some page →
      page.length < min DEFAULT_LIMIT maxResults →
      client_search_businesses capi process location categories radius maxResults
        = (page.take maxResults).map process) ∧
    (∀ (fuel : Nat) (acc : List α) (offset : Nat) (bs : List α),
        acc.length < params.max_results →
        api ⟨params.industry, params.city, radius_meters params,
          min 50 params.max_results, offset⟩ = .ok bs →
        bs.length < min 50 params.max_results →
        searchPagesLoop api params.industry params.city (radius_meters params)
          params.max_results (min 50 params.max_results) (fuel + 1) acc offset
          = (acc ++ bs, [⟨params.industry, params.city, radius_meters params,
              min 50 params.max_results, offset⟩])) ∧
    (∀ (fuel : Nat) (acc : List β) (offset : Nat) (page : List α),
        acc.length < maxResults →
        capi ⟨location, categories, radius,
          min (min DEFAULT_LIMIT maxResults) (maxResults - acc.length), offset⟩
          = some page →
        page.length < min (min DEFAULT_LIMIT maxResults) (maxResults - acc.length) →
        clientPagesLoop capi process location categories radius maxResults
          (min DEFAULT_LIMIT maxResults) (fuel + 1) acc offset
          = acc ++ (page.take (maxResults - acc.length)).map process) := by
  refine ⟨?_, ?_, ?_, ?_, ?_, ?_⟩
  · simp only [search_yelp_businesses]
    simp [List.length_take]
  · intro bs hapi hlen
    cases bs with
    | nil =>
        simp only [search_yelp_businesses, searchPagesLoop, List.length_nil]
        rw [if_pos hN]
        simp [hapi]
    | cons b bs' =>
        simp only [search_yelp_businesses, searchPagesLoop, List.length_nil]
        rw [if_pos hN]
        simp only [hapi]
        rw [if_pos hlen]
        simp
  · simp only [client_search_businesses]
    simp [List.length_take]
  · intro page hcapi hlen
    have hmin : min (min DEFAULT_LIMIT maxResults) maxResults = min DEFAULT_LIMIT maxResults := by
      rw [min_assoc, min_self]
    have hfin : ((page.take maxResults).map process).length ≤ maxResults := by
      simp [List.length_take]
    simp only [client_search_businesses, clientPagesLoop, List.length_nil,
      Nat.sub_zero, hmin]
    rw [if_pos hM, hcapi]
    simp only [hlen, if_pos]
    rw [List.nil_append, List.take_of_length_le hfin]
  · intro fuel acc offset bs hacc hapi hshort
    cases bs with
    | nil =>
        simp only [searchPagesLoop]
        rw [if_pos hacc]
        simp [hapi]
    | cons b bs2 =>
        simp only [searchPagesLoop]
        rw [if_pos hacc]
        simp only [hapi]
        rw [if_pos hshort]
  · intro fuel acc offset page hacc hcapi hshort
    simp only [clientPagesLoop]
    rw [if_pos hacc]
    simp only [hcapi]
    rw [if_pos hshort]

theorem claim_C1_bounded_pagination_witness :
    (search_yelp_businesses (fun _ => Except.ok ([10, 20, 30] : List ℕ))
        ⟨"Nashville, TN", "restaurants", 1/2, 3⟩).1.length ≤ 3 ∧
    (∀ bs : List ℕ, (Except.ok [10, 20, 30] : Except Unit (List ℕ)) = .ok bs →
        bs.length < 3 →
        search_yelp_businesses (fun _ => Except.ok ([10, 20, 30] : List ℕ))
            ⟨"Nashville, TN", "restaurants", 1/2, 3⟩
          = (bs.take 3, [⟨"restaurants", "Nashville, TN",
              radius_meters ⟨"Nashville, TN", "restaurants", 1/2, 3⟩, 3, 0⟩])) ∧
    (client_search_businesses (fun _ => some ([7] : List ℕ)) (fun n => n + 1)
        "Nashville" none 25000 3).length ≤ 3 ∧
    (∀ page : List ℕ, (some [7] : Option (List ℕ)) = some page →
        page.length < 3 →
        client_search_businesses (fun _ => some ([7] : List ℕ)) (fun n => n + 1)
            "Nashville" none 25000 3 = (page.take 3).map (fun n => n + 1)) ∧
    (∀ (fuel : Nat) (acc : List ℕ) (offset : Nat) (bs : List ℕ),
        acc.length < 3 →
        (Except.ok [10, 20, 30] : Except Unit (List ℕ)) = .ok bs →
        bs.length < 3 →
        searchPagesLoop (fun _ => Except.ok ([10, 20, 30] : List ℕ)) "restaurants"
          "Nashville, TN" (radius_meters ⟨"Nashville, TN", "restaurants", 1/2, 3⟩)
          3 3 (fuel + 1) acc offset
          = (acc ++ bs, [⟨"restaurants", "Nashville, TN",
              radius_meters ⟨"Nashville, TN", "restaurants", 1/2, 3⟩, 3, offset⟩])) ∧
    (∀ (fuel : Nat) (acc : List ℕ) (offset : Nat) (page : List ℕ),
        acc.length < 3 →
        (some [7] : Option (List ℕ)) = some page →
        page.length < min 3 (3 - acc.length) →
        clientPagesLoop (fun _ => some ([7] : List ℕ)) (fun n => n + 1)
          "Nashville" none 25000 3 3 (fuel + 1) acc offset
          = acc ++ (page.take (3 - acc.length)).map (fun n => n + 1)) :=
  claim_C1_bounded_pagination (fun _ => Except.ok [10, 20, 30])
    ⟨"Nashville, TN", "restaurants", 1/2, 3⟩ (fun _ => some [7]) (fun n => n + 1)
    "Nashville" none 25000 3 (by decide) (by decide)

theorem searchPagesLoop_radius {α : Type} (api : YelpRequest → Except Unit (List α))
    (term location : String) (radius : ℤ) (maxResults limit : Nat) :
    ∀ (fuel : Nat) (acc : List α) (offset : Nat) (req : YelpRequest),
      req ∈ (searchPagesLoop api term location radius maxResults limit fuel acc offset).2 →
      req.radius = radius := by
  intro fuel
  induction fuel with
  | zero =>
      intro acc offset req h
      simp [searchPagesLoop] at h
  | succ n ih =>
      intro acc offset req h
      simp only [searchPagesLoop] at h
      by_cases hg : acc.length < maxResults
      · rw [if_pos hg] at h
        split at h
        · simp at h
          subst h
          rfl
        · simp at h
          subst h
          rfl
        · split at h
          · simp at h
            subst h
            rfl
          · simp at h
            rcases h with rfl | h
            · rfl
            · exact ih _ _ req h
      · rw [if_neg hg] at h
        simp at h

/-- C8 (corrected): the radius sent in every request the directory
search issues equals `int(distance_miles * 1609.34)`, Python's `int()`
being truncation toward zero — not rounding to the nearest integer. -/
theorem claim_C8_radius_truncated {α : Type} (api : YelpRequest → Except Unit (List α))
    (params : BusinessSearchParams) (req : YelpRequest)
    (h : req ∈ (search_yelp_businesses api params).2) :
    req.radius = pyInt (params.distance_miles * (160934 / 100 : ℚ)) :=
  searchPagesLoop_radius api params.industry params.city (radius_meters params)
    params.max_results (min 50 params.max_results) (params.max_results + 1) [] 0 req h

/-- The request trace of the stub scenario: one full first page of three
listings for `max_results = 3` means exactly one request is issued. -/
theorem search_trace_stub :
    (search_yelp_businesses (fun _ => Except.ok ([10, 20, 30] : List ℕ))
        ⟨"Nashville, TN", "restaurants", 1/2, 3⟩).2
      = [⟨"restaurants", "Nashville, TN",
          radius_meters ⟨"Nashville, TN", "restaurants", 1/2, 3⟩, 3, 0⟩] := rfl

/-- Evaluation of `int(0.5 * 1609.34)`: 804, by truncation. -/
theorem radius_at_half_mile :
    radius_meters ⟨"Nashville, TN", "restaurants", 1/2, 3⟩ = 804 := by
  have h0 : ((1 : ℚ)/2 * (160934 / 100)) = 80467/100 := by norm_num
  simp only [radius_meters, pyInt, h0]
  rw [if_pos (by norm_num : (0 : ℚ) ≤ 80467/100)]
  norm_num

theorem claim_C8_radius_truncated_witness :
    (⟨"restaurants", "Nashville, TN",
        radius_meters ⟨"Nashville, TN", "restaurants", 1/2, 3⟩, 3, 0⟩ : YelpRequest).radius
      = pyInt ((1/2 : ℚ) * (160934 / 100 : ℚ)) :=
  claim_C8_radius_truncated (fun _ => Except.ok ([10, 20, 30] : List ℕ))
    ⟨"Nashville, TN", "restaurants", 1/2, 3⟩
    ⟨"restaurants", "Nashville, TN",
      radius_meters ⟨"Nashville, TN", "restaurants", 1/2, 3⟩, 3, 0⟩
    (by rw [search_trace_stub]
        exact List.mem_singleton.mpr rfl)

/-- C8 counterexample: with `distance_miles = 0.5` and a stub API
returning one full page of three listings for `max_results = 3`, the
single request sent carries radius `804 = int(0.5 * 1609.34)`, whereas
rounding to the nearest integer gives `805`; the radius sent is not
`round(distance_miles * 1609.34)`. -/
theorem claim_C8_round_refuted :
    (search_yelp_businesses (fun _ => Except.ok ([10, 20, 30] : List ℕ))
        ⟨"Nashville, TN", "restaurants", 1/2, 3⟩).2
      = [⟨"restaurants", "Nashville, TN", 804, 3, 0⟩] ∧
    ((804 : ℤ) ≠ round ((1/2 : ℚ) * (160934 / 100 : ℚ)) ∧
      round ((1/2 : ℚ) * (160934 / 100 : ℚ)) = 805) := by
  have h0 : ((1 : ℚ)/2 * (160934 / 100)) = 80467/100 := by norm_num
  have hround : round ((1/2 : ℚ) * (160934 / 100 : ℚ)) = 805 := by
    rw [h0, round_eq]
    norm_num
  refine ⟨?_, ?_, hround⟩
  · rw [search_trace_stub, radius_at_half_mile]
  · rw [hround]
    decide

/-!
Google cross-reference client with cache
(`business_finder.py`, `get_google_business_info`, lines 129-179)

The two `googlemaps` client calls are modelled by an oracle; an
`Except.error` answer is a raised exception, caught by the method's
`except` handler.  The third component of the result counts the
upstream calls issued during this invocation (the `places` search and
the `place` detail fetch), while `google_api_calls` embeds the
`self.google_api_calls` counter, which is incremented only after a
call returns. -/

/-- The Google Places API, as seen through the `googlemaps` client:
`places(query)` returns the search response dict, `place(place_id,
fields=[...])` the detail response dict. -/
structure GoogleOracle where
  places : String → Except Unit PDict
  place : Option PVal → Except Unit PDict

/-- The mutable state of `BusinessFinder` used by the lookup: the
`google_cache` dict (negative results cached as `None`) and the
`google_api_calls` counter. -/
structure GState where
  google_cache : List (String × Option PDict)
  google_api_calls : Nat

/-- The key `f"(business_name.lower())_(address.lower())"` of the Google cache
(`business_finder.py`, line 141). -/
def google_cache_key (business_name address : String) : String :=
  business_name.toLower ++ "_" ++ address.toLower

/-- The truthiness test `if places_result.get("results"):` followed by
`places_result["results"][0]` (`business_finder.py`, lines 154-155):
the first candidate when the results list is nonempty.  (A truthy
non-list `results` value would crash the Python at the indexing and is
outside the API contract.) -/
def truthyResults (places_result : PDict) : Option (PVal × List PVal) :=
  match alistGet places_result "results" with
  | some (.list (place :: rest)) => some (place, rest)
  | _ => none

/-- The method `BusinessFinder.get_google_business_info` (`business_finder.py`,
lines 129-179): memoized search-then-detail lookup.  Returns the
looked-up record, the new state, and the number of upstream calls
issued by this invocation. -/
def get_google_business_info (o : GoogleOracle) (business_name address : String)
    (st : GState) : Option PDict × GState × Nat :=
  let cache_key := google_cache_key business_name address
  match alistGet st.google_cache cache_key with
  | some cached => (cached, st, 0)
  | none =>
      match o.places (business_name ++ " " ++ address) with
      | .error _ =>
          -- exception raised by the search call, caught at line 176
          (none, ⟨alistSet st.google_cache cache_key none, st.google_api_calls⟩, 1)
      | .ok places_result =>
          match truthyResults places_result with
          | some (place, _) =>
              let place_id := match place with
                | .dict d => alistGet d "place_id"
                | _ => none
              match o.place place_id with
              | .error _ =>
                  -- exception raised by the detail call, caught at line 176
                  (none, ⟨alistSet st.google_cache cache_key none,
                    st.google_api_calls + 1⟩, 2)
              | .ok details_result =>
                  let result := match alistGet details_result "result" with
                    | some (.dict d) => d
                    | _ => []
                  (some result,
                   ⟨alistSet st.google_cache cache_key (some result),
                     st.google_api_calls + 2⟩, 2)
          | none =>
              -- no match: cache the negative result (line 173)
              (none, ⟨alistSet st.google_cache cache_key none,
                st.google_api_calls + 1⟩, 1)

/-- After any lookup, the key is bound in the cache to exactly the value
the lookup returned (positive or negative). -/
theorem get_google_caches (o : GoogleOracle) (business_name address : String) (st : GState) :
    alistGet ((get_google_business_info o business_name address st).2.1).google_cache
        (google_cache_key business_name address)
      = some (get_google_business_info o business_name address st).1 := by
  unfold get_google_business_info
  cases hc : alistGet st.google_cache (google_cache_key business_name address) with
  | some cached => simp [hc]
  | none =>
      cases hp : o.places (business_name ++ " " ++ address) with
      | error e => simp [hc, hp, alistGet_set_self]
      | ok places_result =>
          cases ht : truthyResults places_result with
          | none => simp [hc, hp, ht, alistGet_set_self]
          | some pr =>
              cases hd : o.place (match pr.1 with
                | .dict d => alistGet d "place_id"
                | _ => none) with
              | error e => simp [hc, hp, ht, hd, alistGet_set_self]
              | ok details_result => simp [hc, hp, ht, hd, alistGet_set_self]

/-- A cache hit returns the cached value with no upstream call and no
state change. -/
theorem get_google_hit (o : GoogleOracle) (business_name address : String)
    (st : GState) (v : Option PDict)
    (h : alistGet st.google_cache (google_cache_key business_name address) = some v) :
    get_google_business_info o business_name address st = (v, st, 0) := by
  unfold get_google_business_info
  simp [h]

/-- C2 (corrected): a lookup that misses the cache issues one or two
upstream calls — exactly two (search then detail) when the place search
succeeds with a nonempty candidate list, and exactly one when the
search returns no candidates or raises; in every case the outcome is
cached (negatively on no-match and on error), so the second and all
subsequent lookups of the same normalized key issue zero upstream calls
and leave the state unchanged. -/
theorem claim_C2_cache_call_counts (o : GoogleOracle) (business_name address : String)
    (st : GState)
    (hmiss : alistGet st.google_cache (google_cache_key business_name address) = none) :
    (1 ≤ (get_google_business_info o business_name address st).2.2 ∧
     (get_google_business_info o business_name address st).2.2 ≤ 2) ∧
    (∀ pr place rest, o.places (business_name ++ " " ++ address) = .ok pr →
        truthyResults pr = some (place, rest) →
        (get_google_business_info o business_name address st).2.2 = 2) ∧
    (∀ pr, o.places (business_name ++ " " ++ address) = .ok pr →
        truthyResults pr = none →
        (get_google_business_info o business_name address st).2.2 = 1) ∧
    (∀ e, o.places (business_name ++ " " ++ address) = .error e →
        (get_google_business_info o business_name address st).2.2 = 1) ∧
    ((get_google_business_info o business_name address
        (get_google_business_info o business_name address st).2.1).2.2 = 0 ∧
     (get_google_business_info o business_name address
        (get_google_business_info o business_name address st).2.1).1
       = (get_google_business_info o business_name address st).1 ∧
     (get_google_business_info o business_name address
        (get_google_business_info o business_name address st).2.1).2.1
       = (get_google_business_info o business_name address st).2.1) := by
  refine ⟨?_, ?_, ?_, ?_, ?_⟩
  · unfold get_google_business_info
    cases hp : o.places (business_name ++ " " ++ address) with
    | error e => simp [hmiss, hp]
    | ok pr =>
        cases ht : truthyResults pr with
        | none => simp [hmiss, hp, ht]
        | some p =>
            cases hd : o.place (match p.1 with
              | .dict d => alistGet d "place_id"
              | _ => none) with
            | error e => simp [hmiss, hp, ht, hd]
            | ok dr => simp [hmiss, hp, ht, hd]
  · intro pr place rest hp ht
    unfold get_google_business_info
    simp only [hmiss, hp, ht]
    split <;> rfl
  · intro pr hp ht
    simp [get_google_business_info, hmiss, hp, ht]
  · intro e hp
    simp [get_google_business_info, hmiss, hp]
  · rw [get_google_hit o business_name address _ _
      (get_google_caches o business_name address st)]
    exact ⟨rfl, rfl, rfl⟩

/-- The stub upstream used below: the place search succeeds but finds
no candidates, the detail endpoint is never reached. -/
def stubNoMatchOracle : GoogleOracle :=
  ⟨fun _ => Except.ok [("results", PVal.list [])], fun _ => Except.ok []⟩

/-- A fresh `BusinessFinder` state: empty cache, zero calls. -/
def emptyGState : GState := ⟨[], 0⟩

/-- C2 counterexample: on a cache miss whose place search returns zero
candidates, the lookup issues exactly one upstream call, not two — the
detail call is never made, so "each cache miss costs exactly two
upstream calls" fails. -/
theorem claim_C2_two_calls_refuted :
    (get_google_business_info stubNoMatchOracle "Acme Cafe" "1 Main St"
        emptyGState).2.2 = 1 ∧
    (get_google_business_info stubNoMatchOracle "Acme Cafe" "1 Main St"
        emptyGState).2.2 ≠ 2 := by
  exact ⟨rfl, by decide⟩

theorem claim_C2_cache_call_counts_witness :
    (1 ≤ (get_google_business_info stubNoMatchOracle "Acme Cafe" "1 Main St"
        emptyGState).2.2 ∧
     (get_google_business_info stubNoMatchOracle "Acme Cafe" "1 Main St"
        emptyGState).2.2 ≤ 2) ∧
    (∀ pr place rest, stubNoMatchOracle.places ("Acme Cafe" ++ " " ++ "1 Main St")
        = .ok pr →
        truthyResults pr = some (place, rest) →
        (get_google_business_info stubNoMatchOracle "Acme Cafe" "1 Main St"
          emptyGState).2.2 = 2) ∧
    (∀ pr, stubNoMatchOracle.places ("Acme Cafe" ++ " " ++ "1 Main St") = .ok pr →
        truthyResults pr = none →
        (get_google_business_info stubNoMatchOracle "Acme Cafe" "1 Main St"
          emptyGState).2.2 = 1) ∧
    (∀ e, stubNoMatchOracle.places ("Acme Cafe" ++ " " ++ "1 Main St") = .error e →
        (get_google_business_info stubNoMatchOracle "Acme Cafe" "1 Main St"
          emptyGState).2.2 = 1) ∧
    ((get_google_business_info stubNoMatchOracle "Acme Cafe" "1 Main St"
        (get_google_business_info stubNoMatchOracle "Acme Cafe" "1 Main St"
          emptyGState).2.1).2.2 = 0 ∧
     (get_google_business_info stubNoMatchOracle "Acme Cafe" "1 Main St"
        (get_google_business_info stubNoMatchOracle "Acme Cafe" "1 Main St"
          emptyGState).2.1).1
       = (get_google_business_info stubNoMatchOracle "Acme Cafe" "1 Main St"
          emptyGState).1 ∧
     (get_google_business_info stubNoMatchOracle "Acme Cafe" "1 Main St"
        (get_google_business_info stubNoMatchOracle "Acme Cafe" "1 Main St"
          emptyGState).2.1).2.1
       = (get_google_business_info stubNoMatchOracle "Acme Cafe" "1 Main St"
          emptyGState).2.1) :=
  claim_C2_cache_call_counts stubNoMatchOracle "Acme Cafe" "1 Main St" emptyGState rfl

/-!
Address verification of a listing
(`business_finder.py`, `verify_business_address`, lines 489-529)

The method takes the raw listing dict and writes the verification
results into that same dict (`business['address_verified'] = ...`);
the embedding returns the updated dict, mutation of the Python object
being update of the association list.  The verifier collaborator is the
flag returned by `get_smarty_verifier()` plus the outcome of its
`verify_address` call on the four address components. -/

/-- A value read by `location.get(k, '')` where the code expects a
string; a non-string value would not type as an address component. -/
def strOrEmpty (v : Option PVal) : String :=
  match v with
  | some (.str s) => s
  | _ => ""

/-- A Python value that is a string or `None`. -/
def optStrVal : Option String → PVal
  | none => .pynone
  | some s => .str s

/-- The keys `verify_business_address` writes into the listing
(`business_finder.py`, lines 518-527). -/
def verificationKeys : List String :=
  ["address_verified", "address_verification_status", "verified_address",
   "verified_city", "verified_state", "verified_zip_code",
   "verification_confidence", "verification_error"]

/-- The method `BusinessFinder.verify_business_address` (`business_finder.py`,
lines 489-529): with no verifier available or an incomplete address the
listing is returned untouched; otherwise the verification outcome is
written into the listing dict itself. -/
def verify_business_address (verifier_available : Bool)
    (verifier : String → String → String → String → VerifyOutcome)
    (business : PDict) : PDict :=
  if !verifier_available then business
  else
    let location := getLocation business
    let street := strOrEmpty (alistGet location "address1")
    let city := strOrEmpty (alistGet location "city")
    let state := strOrEmpty (alistGet location "state")
    let zip_code := strOrEmpty (alistGet location "zip_code")
    -- `if not all([street, city, state, zip_code]):` — empty strings are falsy
    if street = "" ∨ city = "" ∨ state = "" ∨ zip_code = "" then business
    else
      let verification_result := verifier street city state zip_code
      let b1 := alistSet business "address_verified"
        (.bool verification_result.verified)
      let b2 := alistSet b1 "address_verification_status"
        (.str verification_result.status)
      let b3 := alistSet b2 "verified_address"
        (optStrVal verification_result.verified_address)
      let b4 := alistSet b3 "verified_city"
        (optStrVal verification_result.verified_city)
      let b5 := alistSet b4 "verified_state"
        (optStrVal verification_result.verified_state)
      let b6 := alistSet b5 "verified_zip_code"
        (optStrVal verification_result.verified_zip_code)
      let b7 := alistSet b6 "verification_confidence"
        (.num verification_result.confidence)
      -- `if verification_result['error']:` — None and "" are falsy
      match verification_result.error with
      | some e => if e = "" then b7 else alistSet b7 "verification_error" (.str e)
      | none => b7

/-- C9 (corrected): reconciliation (`fast_verify_business`) builds a
fresh output record and the cross-reference only reads the listing, but
`verify_business_address` does mutate the listing record, writing the
verification fields into it; every key outside that verification set
keeps exactly its previous value. -/
theorem claim_C9_only_verification_keys_written (verifier_available : Bool)
    (verifier : String → String → String → String → VerifyOutcome)
    (business : PDict) (k : String) (hk : k ∉ verificationKeys) :
    alistGet (verify_business_address verifier_available verifier business) k
      = alistGet business k := by
  simp only [verificationKeys, List.mem_cons, List.not_mem_nil, or_false, not_or] at hk
  obtain ⟨h1, h2, h3, h4, h5, h6, h7, h8⟩ := hk
  unfold verify_business_address
  split
  · rfl
  · dsimp only
    split
    · rfl
    · split
      · split
        · rw [alistGet_set_ne (Ne.symm h7), alistGet_set_ne (Ne.symm h6),
            alistGet_set_ne (Ne.symm h5), alistGet_set_ne (Ne.symm h4),
            alistGet_set_ne (Ne.symm h3), alistGet_set_ne (Ne.symm h2),
            alistGet_set_ne (Ne.symm h1)]
        · rw [alistGet_set_ne (Ne.symm h8), alistGet_set_ne (Ne.symm h7),
            alistGet_set_ne (Ne.symm h6), alistGet_set_ne (Ne.symm h5),
            alistGet_set_ne (Ne.symm h4), alistGet_set_ne (Ne.symm h3),
            alistGet_set_ne (Ne.symm h2), alistGet_set_ne (Ne.symm h1)]
      · rw [alistGet_set_ne (Ne.symm h7), alistGet_set_ne (Ne.symm h6),
          alistGet_set_ne (Ne.symm h5), alistGet_set_ne (Ne.symm h4),
          alistGet_set_ne (Ne.symm h3), alistGet_set_ne (Ne.symm h2),
          alistGet_set_ne (Ne.symm h1)]

/-- A raw listing with a complete address, as the dashboard passes to
`verify_business_address`. -/
def sampleListing : PDict :=
  [("name", .str "Acme Cafe"),
   ("location", .dict [("address1", .str "1 Main St"), ("city", .str "Nashville"),
     ("state", .str "TN"), ("zip_code", .str "37201")]),
   ("phone", .str "615-555-0100")]

/-- A successful verification outcome for the sample listing. -/
def sampleOutcome : VerifyOutcome :=
  ⟨true, "verified", 1, some "1 Main St", some "Nashville", some "TN",
   some "37201", none⟩

/-- C9 counterexample: on a listing with a complete address and an
available verifier, `verify_business_address` changes the listing — the
key `address_verified`, absent before the call, is present afterwards —
so the listing record is not left identical by every pipeline
operation. -/
theorem claim_C9_immutability_refuted :
    verify_business_address true (fun _ _ _ _ => sampleOutcome) sampleListing
      ≠ sampleListing ∧
    alistGet (verify_business_address true (fun _ _ _ _ => sampleOutcome) sampleListing)
      "address_verified" = some (.bool true) ∧
    alistGet sampleListing "address_verified" = none := by
  refine ⟨?_, rfl, rfl⟩
  intro h
  have h2 : (true : Bool) = false :=
    congrArg (fun d => (alistGet d "address_verified").isSome) h
  exact Bool.noConfusion h2

theorem claim_C9_only_verification_keys_written_witness :
    alistGet (verify_business_address true (fun _ _ _ _ => sampleOutcome) sampleListing)
      "phone" = alistGet sampleListing "phone" :=
  claim_C9_only_verification_keys_written true (fun _ _ _ _ => sampleOutcome)
    sampleListing "phone" (by decide)
